import Mathlib

/-!
Shallow embedding of the fraud-detection / reconciliation core of the
invoice-NFT marketplace (src/agent_fraud_detection.py and
src/agent_reconciliation.py).  Python floats are idealised as exact
rationals (ℚ); timestamps are rationals measured in days, with
`timedelta.days` modelled as `Int.floor` of the difference (Python floor
division).  Dictionary fields that a function reads with a default are
modelled with that default folded in where the distinction is
unobservable, and with `Option` where absence is observable.
-/

/-- Scalar value of an amount field as it arrives in a record: absent/None,
a number, or a raw string.  Models the argument of `_safe_float`. -/
inductive Amt where
  | null : Amt
  | num (q : ℚ) : Amt
  | str (s : List Char) : Amt
deriving DecidableEq, Repr

/-- Whitespace characters removed by Python `str.strip()` (ASCII set). -/
def pyWS (c : Char) : Bool :=
  c == ' ' || c == '\t' || c == '\n' || c == '\r' || c.toNat == 11 || c.toNat == 12

/-- Python `str.strip()`: drop leading and trailing whitespace. -/
def pyStrip (s : List Char) : List Char :=
  ((s.dropWhile pyWS).reverse.dropWhile pyWS).reverse

/-- The cleaning done by `_safe_float` before the regex:
`str(val).strip().replace(",", "").replace(" ", "")`. -/
def cleanAmt (s : List Char) : List Char :=
  (pyStrip s).filter (fun c => !(c == ',') && !(c == ' '))

/-- Numeric value of a digit string (most significant first). -/
def digitsToNat (ds : List Char) : Nat :=
  ds.foldl (fun acc c => 10 * acc + (c.toNat - Char.toNat '0')) 0

/-- Greedy match of `\d+\.?\d*` at the head of the input, as Python's regex
engine matches it: a maximal digit run, an optional dot, a maximal digit
run; `float` of the matched text. -/
def matchUnsigned (cs : List Char) : Option ℚ :=
  if (cs.takeWhile Char.isDigit).isEmpty then none
  else
    match cs.dropWhile Char.isDigit with
    | '.' :: rest2 =>
        some ((digitsToNat (cs.takeWhile Char.isDigit) : ℚ) +
          (digitsToNat (rest2.takeWhile Char.isDigit) : ℚ) /
            ((10 : ℚ) ^ (rest2.takeWhile Char.isDigit).length))
    | _ => some (digitsToNat (cs.takeWhile Char.isDigit) : ℚ)

/-- Greedy match of `[-]?\d+\.?\d*` at the head of the input. -/
def matchSigned (cs : List Char) : Option ℚ :=
  match cs with
  | c :: rest =>
    if c = '-' then (matchUnsigned rest).map (fun q => -q)
    else matchUnsigned (c :: rest)
  | [] => none

/-- Python `re.search(r"[-]?\d+\.?\d*", s)`: value of the leftmost match. -/
def searchNumber : List Char → Option ℚ
  | [] => none
  | c :: rest =>
    match matchSigned (c :: rest) with
    | some q => some q
    | none => searchNumber rest

/-- Embedding of `_safe_float(val, default=0.0)` from
src/agent_fraud_detection.py: numbers pass through, strings are cleaned and
searched for the first signed decimal token, everything else falls back to
the default 0. -/
def safe_float : Amt → ℚ
  | Amt.null => 0
  | Amt.num q => q
  | Amt.str s =>
    match searchNumber (cleanAmt s) with
    | some q => q
    | none => 0

/-- Python `str.lower()` (ASCII behaviour), as a map over the string's
characters. -/
def pyLower (s : String) : String := ⟨s.data.map Char.toLower⟩

/-- Python `abs` on a rational. -/
def ratAbs (q : ℚ) : ℚ := if q < 0 then -q else q

/-- State of a record's `timestamp` field as the Python code observes it:
absent from the dict, present but not ISO-parseable, or a parseable point
in time (measured in days, fractional part = time of day). -/
inductive TS where
  | missing : TS
  | bad : TS
  | val (t : ℚ) : TS
deriving DecidableEq, Repr

/-- One entry of an invoice's `line_items`; only its `total` field is read
by the calculation detector. -/
structure LineItem where
  total : Amt
deriving DecidableEq, Repr

/-- An invoice record (candidate invoice or historical store entry) with
the fields the fraud module reads.  `supplier_name` is read only through
`.get('supplier_name', '')`, so absence is folded into `""`;
`invoice_number` keeps absence observable (`existing.get('invoice_number')`
has no default); `flags` is read only for truthiness of the list. -/
structure Rec where
  supplier_name : String
  invoice_number : Option String
  total_amount : Amt
  vat_amount : Amt
  line_items : List LineItem
  timestamp : TS
  flags : List String
deriving DecidableEq, Repr

/-- The timestamp the duplicate/velocity detectors end up parsing:
`datetime.fromisoformat(existing.get('timestamp', datetime.now().isoformat()))`.
A missing field becomes "now"; an unparseable one raises (handled by the
caller's `except`); a parseable one is its value. -/
def tsOrNow (now : ℚ) : TS → Option ℚ
  | TS.missing => some now
  | TS.bad => none
  | TS.val t => some t

/-- Date-proximity test of the suspicious-duplicate rule:
`abs((datetime.now() - existing_date).days) <= 30`, with a parse failure
swallowed by the surrounding `try` (no finding). -/
def dupDateOk (now : ℚ) (ts : TS) : Bool :=
  match tsOrNow now ts with
  | none => false
  | some t => (now - t).floor.natAbs ≤ 30

/-- Window test of the velocity detector:
`(datetime.now() - existing_date).days <= 7`, with a parse failure
swallowed by the surrounding `try` (record not counted). -/
def velWindowOk (now : ℚ) (ts : TS) : Bool :=
  match tsOrNow now ts with
  | none => false
  | some t => decide ((now - t).floor ≤ 7)

/-- A finding of the duplicate detector: its `type`, `severity` and the
matched historical record (the dict's `match` key). -/
structure DupFinding where
  dtype : String
  severity : String
  evidence : Rec
deriving DecidableEq, Repr

/-- Findings the loop body of `detect_duplicate_invoices` appends for one
store record: an exact duplicate on identical invoice number, and a
suspicious duplicate on same supplier + amount within 0.01 + timestamp
within 30 days. -/
def dupFindingsFor (supplier : String) (amount : ℚ) (invoice_num : String)
    (now : ℚ) (existing : Rec) : List DupFinding :=
  (if existing.invoice_number = some invoice_num then
      [⟨"exact_duplicate", "critical", existing⟩]
    else []) ++
  (if pyLower existing.supplier_name = supplier ∧
      ratAbs (amount - safe_float existing.total_amount) < 1/100 ∧
      dupDateOk now existing.timestamp = true then
      [⟨"suspicious_duplicate", "high", existing⟩]
    else [])

/-- Embedding of `detect_duplicate_invoices(self, invoice)` with the store
`self.invoices_db` and the wall clock passed explicitly. -/
def detect_duplicate_invoices (invoice : Rec) (db : List Rec) (now : ℚ) :
    List DupFinding :=
  db.flatMap (dupFindingsFor (pyLower invoice.supplier_name)
    (safe_float invoice.total_amount) (invoice.invoice_number.getD "") now)

/-- Python float modulo `a % b` (`a - b * floor(a / b)`). -/
def pyMod (a b : ℚ) : ℚ := a - b * ((a / b).floor : ℤ)

/-- Embedding of `detect_round_number_fraud(self, invoice)`: `some s` is a
detection of severity `s`, `none` is `{'detected': False}`. -/
def detect_round_number_fraud (invoice : Rec) : Option String :=
  if 1000 < safe_float invoice.total_amount ∧
      pyMod (safe_float invoice.total_amount) 1000 = 0 then some "medium"
  else if 100 < safe_float invoice.total_amount ∧
      pyMod (safe_float invoice.total_amount) 100 = 0 ∧
      safe_float invoice.total_amount < 1000 then some "low"
  else none

/-- The count the velocity detector accumulates: store records whose
lower-cased supplier name equals `supplier` and which pass the 7-day
window test. -/
def velocityCount (supplier : String) (db : List Rec) (now : ℚ) : Nat :=
  (db.filter (fun existing =>
    decide (pyLower existing.supplier_name = supplier) &&
      velWindowOk now existing.timestamp)).length

/-- Embedding of `detect_velocity_attack(self, invoice)`: `some (s, c)` is
a detection of severity `s` reporting count `c`. -/
def detect_velocity_attack (invoice : Rec) (db : List Rec) (now : ℚ) :
    Option (String × Nat) :=
  if 5 ≤ velocityCount (pyLower invoice.supplier_name) db now then
    some ("high", velocityCount (pyLower invoice.supplier_name) db now)
  else none

/-- Embedding of `detect_calculation_anomalies(self, invoice)`:
`some (s, d)` is a detection of severity `s` carrying discrepancy `d`. -/
def detect_calculation_anomalies (invoice : Rec) : Option (String × ℚ) :=
  let total := safe_float invoice.total_amount
  let vat := safe_float invoice.vat_amount
  if invoice.line_items.isEmpty then none
  else
    let calculated_subtotal :=
      (invoice.line_items.map (fun item => safe_float item.total)).sum
    let expected_total := calculated_subtotal + vat
    if 1 < ratAbs (total - expected_total) then
      some ("high", total - expected_total)
    else none

/-- One element of the `detected_issues` list that `analyze_invoice`
accumulates (the four detectors produce dicts of different shapes). -/
inductive Issue where
  | dup (f : DupFinding) : Issue
  | round (severity : String) : Issue
  | velocity (severity : String) (count : Nat) : Issue
  | calc (severity : String) (discrepancy : ℚ) : Issue
deriving DecidableEq, Repr

/-- The `detected_issues` list assembled by `analyze_invoice`: duplicate
findings, then the round-number, velocity and calculation detections when
present.  These are the only findings the analysis records. -/
def analyze_findings (invoice : Rec) (db : List Rec) (now : ℚ) : List Issue :=
  (detect_duplicate_invoices invoice db now).map Issue.dup ++
  ((detect_round_number_fraud invoice).map Issue.round).toList ++
  ((detect_velocity_attack invoice db now).map
    (fun p => Issue.velocity p.1 p.2)).toList ++
  ((detect_calculation_anomalies invoice).map
    (fun p => Issue.calc p.1 p.2)).toList

/-- Python `round` on a rational: round half to even (banker's rounding). -/
def pyRound (q : ℚ) : ℤ :=
  if q - (q.floor : ℚ) < 1/2 then q.floor
  else if 1/2 < q - (q.floor : ℚ) then q.floor + 1
  else if q.floor % 2 = 0 then q.floor else q.floor + 1

/-- Score and qualitative level returned by the risk scorer (the dict's
further keys, reason and historical counts, are not tracked). -/
structure RiskScore where
  score : ℤ
  level : String
deriving DecidableEq, Repr

/-- Mean of a list of rationals (`statistics.mean`). -/
def qMean (xs : List ℚ) : ℚ := xs.sum / (xs.length : ℚ)

/-- Sample variance, `statistics.stdev` squared: `Σ(x − mean)² / (n − 1)`. -/
def sampleVar (xs : List ℚ) : ℚ :=
  ((xs.map (fun x => (x - qMean xs) ^ 2)).sum) / ((xs.length : ℚ) - 1)

/-- The scorer's variance test `statistics.stdev(amounts) > mean * 0.5`,
written without a square root: for `c = mean/2`, `√v > c` iff `c < 0`
(a square root is never negative) or `c² < v`. -/
def stdevGtHalfMean (xs : List ℚ) : Prop :=
  qMean xs / 2 < 0 ∨ (qMean xs / 2) ^ 2 < sampleVar xs

instance (xs : List ℚ) : Decidable (stdevGtHalfMean xs) := by
  unfold stdevGtHalfMean; infer_instance

/-- Timestamps of a supplier's invoices as the risk scorer collects them:
`datetime.fromisoformat(inv.get('timestamp'))` inside `try`, so a missing
or unparseable timestamp is skipped. -/
def parsedDates (invs : List Rec) : List ℚ :=
  invs.filterMap (fun inv =>
    match inv.timestamp with
    | TS.val t => some t
    | _ => none)

/-- Sum of the day gaps between consecutive timestamps,
`Σ (dates[i+1] - dates[i]).days` (each gap floored to whole days). -/
def gapDaysSum : List ℚ → ℤ
  | a :: b :: rest => (b - a).floor + gapDaysSum (b :: rest)
  | _ => 0

/-- The supplier's historical records:
`[inv for inv in db if inv.get('supplier_name','').lower() == supplier_name.lower()]`. -/
def supplierRecords (supplier_name : String) (db : List Rec) : List Rec :=
  db.filter (fun inv => decide (pyLower inv.supplier_name = pyLower supplier_name))

/-- Embedding of `calculate_risk_score(self, supplier_name)` over the store
`db`.  The result is `none` exactly when the Python code raises
`ZeroDivisionError`: with more than 10 supplier invoices of which exactly
one has a parseable timestamp, `sum([...]) / (len(dates) - 1)` divides by
zero.  The source's sequential `risk_factors += 1` / `total_factors += 1`
updates are written as sums of indicator contributions, one summand per
factor, with each factor's nested `if` conditions conjoined. -/
def calculate_risk_score (supplier_name : String) (db : List Rec) :
    Option RiskScore :=
  let supplier_invoices := supplierRecords supplier_name db
  if supplier_invoices.isEmpty then some ⟨50, "medium"⟩
  else
    let n := supplier_invoices.length
    let flagged := (supplier_invoices.filter (fun inv => !inv.flags.isEmpty)).length
    let amounts := supplier_invoices.map (fun inv => safe_float inv.total_amount)
    let dates := parsedDates supplier_invoices
    if 10 < n ∧ dates.length = 1 then none
    else
      let sorted := dates.insertionSort (· ≤ ·)
      let risk_factors : Nat :=
        (if (n : ℚ) * (3/10) < (flagged : ℚ) then 1 else 0) +
        (if 1 < amounts.length ∧ stdevGtHalfMean amounts then 1 else 0) +
        (if 10 < n ∧ ¬dates.isEmpty ∧
            (gapDaysSum sorted : ℚ) / ((dates.length : ℚ) - 1) < 3 then 1 else 0)
      let total_factors : Nat := 1 + (if 1 < amounts.length then 1 else 0) + 1
      let risk_score : ℚ :=
        if 0 < total_factors then (risk_factors : ℚ) / (total_factors : ℚ) * 100
        else 50
      let level : String :=
        if risk_score < 30 then "low"
        else if risk_score < 60 then "medium"
        else "high"
      some ⟨pyRound risk_score, level⟩

/-- A payment event as the matcher reads it: only its `value` field. -/
structure Payment where
  value : ℚ
deriving DecidableEq, Repr

/-- A pending invoice as the reconciliation matcher reads it
(`float(invoice.get('total_amount', 0))`): the amount is stored numeric
per the data model, `none` meaning the field is absent (defaulting to 0);
`invoice_number` is carried only for identification. -/
structure PendingInvoice where
  total_amount : Option ℚ
  invoice_number : Option String
deriving DecidableEq, Repr

/-- The dict `match_payment_to_invoice` returns. -/
structure MatchResult where
  matched : Bool
  invoice : Option PendingInvoice
  payment : Payment
  match_type : Option String
  difference : Option ℚ
  paid_percentage : Option ℚ
  reason : Option String
deriving DecidableEq, Repr

/-- Embedding of `match_payment_to_invoice(self, payment, tolerance=0.01)`
over the pending-invoice list `self.pending_invoices`: first-fit scan,
exact rule before partial rule on each invoice. -/
def match_payment_to_invoice :
    List PendingInvoice → Payment → ℚ → MatchResult
  | [], payment, _ =>
    ⟨false, none, payment, none, none, none, some "No matching invoice found"⟩
  | invoice :: rest, payment, tolerance =>
    if ratAbs (payment.value - invoice.total_amount.getD 0) ≤ tolerance then
      ⟨true, some invoice, payment, some "exact", some 0, none, none⟩
    else if payment.value < invoice.total_amount.getD 0 ∧ 0 < payment.value then
      ⟨true, some invoice, payment, some "partial",
        some (invoice.total_amount.getD 0 - payment.value),
        some (payment.value / invoice.total_amount.getD 0 * 100), none⟩
    else match_payment_to_invoice rest payment tolerance

/-- The matching step of `reconcile_payments`: one call of
`match_payment_to_invoice` per payment, in order, against the unchanged
pending list, at the default tolerance 0.01. -/
def reconcile_matches (pending : List PendingInvoice) (payments : List Payment) :
    List MatchResult :=
  payments.map (fun payment => match_payment_to_invoice pending payment (1/100))

/-! Claim-side definitions: statements of the specification's wording, to
be compared with the embeddings above. -/

/-- Exact-match rule of the matcher specification:
`|payment.value − invoice.total_amount| ≤ tolerance`. -/
def exactRule (tolerance p t : ℚ) : Prop := |p - t| ≤ tolerance

instance (tolerance p t : ℚ) : Decidable (exactRule tolerance p t) := by
  unfold exactRule; infer_instance

/-- Partial-match rule of the matcher specification:
`0 < payment.value < invoice.total_amount`. -/
def partRule (p t : ℚ) : Prop := 0 < p ∧ p < t

instance (p t : ℚ) : Decidable (partRule p t) := by
  unfold partRule; infer_instance

/-- Match result per the specification's wording: the first pending
invoice satisfying the exact rule or the partial rule determines the
result; no invoice satisfying either gives the unmatched dict. -/
def matchSpec (pending : List PendingInvoice) (payment : Payment)
    (tolerance : ℚ) : MatchResult :=
  match pending.find? (fun inv =>
      decide (exactRule tolerance payment.value (inv.total_amount.getD 0)) ||
      decide (partRule payment.value (inv.total_amount.getD 0))) with
  | none =>
    ⟨false, none, payment, none, none, none, some "No matching invoice found"⟩
  | some inv =>
    if exactRule tolerance payment.value (inv.total_amount.getD 0) then
      ⟨true, some inv, payment, some "exact", some 0, none, none⟩
    else
      ⟨true, some inv, payment, some "partial",
        some (inv.total_amount.getD 0 - payment.value),
        some (payment.value / inv.total_amount.getD 0 * 100), none⟩

/-- Match result with the exact rule disabled: what first-fit matching
degenerates to when the tolerance is negative. -/
def matchSpecPartOnly (pending : List PendingInvoice) (payment : Payment) :
    MatchResult :=
  match pending.find? (fun inv =>
      decide (partRule payment.value (inv.total_amount.getD 0))) with
  | none =>
    ⟨false, none, payment, none, none, none, some "No matching invoice found"⟩
  | some inv =>
    ⟨true, some inv, payment, some "partial",
      some (inv.total_amount.getD 0 - payment.value),
      some (payment.value / inv.total_amount.getD 0 * 100), none⟩

/-- The velocity window as the claim words it: the timestamp lies within
the last 7 days of `now`, inclusive on both ends. -/
def inLast7Days (now : ℚ) : TS → Bool
  | TS.val t => decide (now - 7 ≤ t ∧ t ≤ now)
  | _ => false

/-- The velocity window as the code actually tests it: the record is less
than 8 whole days old (gaps are floored to whole days, so ages up to just
under 8 days pass; any future timestamp passes; a missing timestamp counts
as `now`; an unparseable one is skipped). -/
def atMost7DaysOld (now : ℚ) : TS → Bool
  | TS.missing => true
  | TS.bad => false
  | TS.val t => decide (now - t < 8)

/-- Risk factor 1 of the claim: more than 30% of the supplier's records
carry at least one flag. -/
def riskF1 (invs : List Rec) : Prop :=
  (invs.length : ℚ) * (3/10) <
    ((invs.filter (fun inv => !inv.flags.isEmpty)).length : ℚ)

instance (invs : List Rec) : Decidable (riskF1 invs) := by
  unfold riskF1; infer_instance

/-- Risk factor 2 of the claim: at least 2 records and the sample standard
deviation of the normalized amounts exceeds 50% of their mean. -/
def riskF2 (invs : List Rec) : Prop :=
  1 < (invs.map (fun inv => safe_float inv.total_amount)).length ∧
    stdevGtHalfMean (invs.map (fun inv => safe_float inv.total_amount))

instance (invs : List Rec) : Decidable (riskF2 invs) := by
  unfold riskF2; infer_instance

/-- Risk factor 3 of the (amended) claim: more than 10 records, at least
one with a parseable timestamp, and the mean of the floored day gaps
between consecutive time-sorted parseable timestamps is under 3. -/
def riskF3 (invs : List Rec) : Prop :=
  10 < invs.length ∧ ¬(parsedDates invs).isEmpty ∧
    (gapDaysSum ((parsedDates invs).insertionSort (· ≤ ·)) : ℚ) /
      (((parsedDates invs).length : ℚ) - 1) < 3

instance (invs : List Rec) : Decidable (riskF3 invs) := by
  unfold riskF3; infer_instance

/-- Number of triggered risk factors of the claim. -/
def triggeredFactors (invs : List Rec) : Nat :=
  (if riskF1 invs then 1 else 0) + (if riskF2 invs then 1 else 0) +
    (if riskF3 invs then 1 else 0)

/-- Number of applicable risk factors of the claim: factors 1 and 3
always, factor 2 only with at least 2 records. -/
def applicableFactors (invs : List Rec) : Nat :=
  2 + (if 1 < (invs.map (fun inv => safe_float inv.total_amount)).length
    then 1 else 0)

/-- Risk score per the claim's formula: 50/medium for an unknown supplier,
otherwise `round((triggered / applicable) * 100)` with the level banded on
the rounded score (`< 30` low, `< 60` medium, else high). -/
def riskScoreSpec (supplier_name : String) (db : List Rec) : RiskScore :=
  let invs := supplierRecords supplier_name db
  if invs.isEmpty then ⟨50, "medium"⟩
  else
    let score :=
      pyRound ((triggeredFactors invs : ℚ) / (applicableFactors invs : ℚ) * 100)
    ⟨score, if score < 30 then "low"
      else if score < 60 then "medium" else "high"⟩

/-! Concrete records used by witnesses and counterexamples. -/

/-- A candidate invoice of supplier "acme" with an absent amount. -/
def recA : Rec := ⟨"acme", some "INV-1", Amt.null, Amt.null, [], TS.missing, []⟩

/-- A store record of supplier "acme" without a timestamp field. -/
def recNoTs : Rec := ⟨"acme", none, Amt.null, Amt.null, [], TS.missing, []⟩

/-- A store record of supplier "acme" with a parseable timestamp at day 0. -/
def recWithTs : Rec := ⟨"acme", none, Amt.null, Amt.null, [], TS.val 0, []⟩

/-- A store record of supplier "acme" dated 100 days in the future. -/
def recFuture : Rec := ⟨"acme", none, Amt.null, Amt.null, [], TS.val 100, []⟩

/-- A pending invoice of total amount 100. -/
def pendingB : PendingInvoice := ⟨some 100, none⟩

/-- Inputs whose normalization a non-negativity claim could cover: absent
values, non-negative numbers, and strings without a minus sign. -/
def amtNonneg : Amt → Prop
  | Amt.null => True
  | Amt.num q => 0 ≤ q
  | Amt.str s => '-' ∉ s

/-- An amount field that is absent or an unparseable string: exactly the
inputs `_safe_float` degrades to its default 0.0. -/
def amtDegraded : Amt → Prop
  | Amt.null => True
  | Amt.num _ => False
  | Amt.str s => searchNumber (cleanAmt s) = none

/-! Theorems. -/

/-- Batteries' computable rational floor agrees with the floor of the
ordered field. -/
theorem ratFloor_eq_floor (q : ℚ) : q.floor = Int.floor q := by
  rw [Rat.floor_def', Rat.floor_def]

/-- The embedded `ratAbs` agrees with the absolute value. -/
theorem ratAbs_eq_abs (q : ℚ) : ratAbs q = |q| := by
  unfold ratAbs
  split_ifs with h
  · exact (abs_of_neg h).symm
  · exact (abs_of_nonneg (not_lt.mp h)).symm

/-- Python float modulo vanishes exactly on the integer multiples of the
(nonzero) modulus. -/
theorem pyMod_eq_zero_iff {a b : ℚ} (hb : b ≠ 0) :
    pyMod a b = 0 ↔ ∃ k : ℤ, a = (k : ℚ) * b := by
  unfold pyMod
  rw [ratFloor_eq_floor]
  constructor
  · intro h
    exact ⟨Int.floor (a / b), by linear_combination h⟩
  · rintro ⟨k, rfl⟩
    rw [mul_div_cancel_right₀ _ hb, Int.floor_intCast]
    ring

/-- C10: for a store record lacking its timestamp field, the duplicate and
velocity detectors substitute the current time for the missing timestamp
(`existing.get('timestamp', datetime.now().isoformat())`), so the record
passes both the 30-day suspicious-duplicate date test and the 7-day
velocity window test. -/
theorem C10_missing_timestamp (now : ℚ) :
    tsOrNow now TS.missing = some now ∧ dupDateOk now TS.missing = true ∧
      velWindowOk now TS.missing = true := by
  have h0 : ((now - now : ℚ)).floor = 0 := by
    rw [sub_self, ratFloor_eq_floor, Int.floor_zero]
  refine ⟨rfl, ?_, ?_⟩
  · show decide (((now - now : ℚ)).floor.natAbs ≤ 30) = true
    rw [h0]
    rfl
  · show decide (((now - now : ℚ)).floor ≤ 7) = true
    rw [h0]
    rfl

/-- C6: the round-number detector flags `medium` exactly on normalized
amounts strictly above 1000 that are exact integer multiples of 1000, and
`low` exactly on amounts strictly between 100 and 1000 that are exact
integer multiples of 100; amounts of at most 100 never flag, and there is
no other finding, so the two cases are mutually exclusive. -/
theorem C6_round_number (invoice : Rec) :
    (detect_round_number_fraud invoice = some "medium" ↔
      1000 < safe_float invoice.total_amount ∧
        ∃ k : ℤ, safe_float invoice.total_amount = (k : ℚ) * 1000) ∧
      (detect_round_number_fraud invoice = some "low" ↔
        100 < safe_float invoice.total_amount ∧
          safe_float invoice.total_amount < 1000 ∧
          ∃ k : ℤ, safe_float invoice.total_amount = (k : ℚ) * 100) ∧
      (safe_float invoice.total_amount ≤ 100 →
        detect_round_number_fraud invoice = none) ∧
      (detect_round_number_fraud invoice = none ∨
        detect_round_number_fraud invoice = some "medium" ∨
        detect_round_number_fraud invoice = some "low") := by
  have h1000 : (1000 : ℚ) ≠ 0 := by norm_num
  have h100 : (100 : ℚ) ≠ 0 := by norm_num
  unfold detect_round_number_fraud
  split_ifs with h1 h2
  · refine ⟨iff_of_true rfl ⟨h1.1, (pyMod_eq_zero_iff h1000).mp h1.2⟩,
      iff_of_false (by simp) ?_, fun hc => absurd h1.1 (by linarith), ?_⟩
    · rintro ⟨-, hlt, -⟩
      exact absurd h1.1 (by linarith)
    · exact Or.inr (Or.inl rfl)
  · refine ⟨iff_of_false (by simp) ?_,
      iff_of_true rfl ⟨h2.1, h2.2.2, (pyMod_eq_zero_iff h100).mp h2.2.1⟩,
      fun hc => absurd h2.1 (by linarith), Or.inr (Or.inr rfl)⟩
    rintro ⟨hgt, k, hk⟩
    exact h1 ⟨hgt, (pyMod_eq_zero_iff h1000).mpr ⟨k, hk⟩⟩
  · refine ⟨iff_of_false (by simp) ?_, iff_of_false (by simp) ?_,
      fun _ => rfl, Or.inl rfl⟩
    · rintro ⟨hgt, k, hk⟩
      exact h1 ⟨hgt, (pyMod_eq_zero_iff h1000).mpr ⟨k, hk⟩⟩
    · rintro ⟨hgt, hlt, k, hk⟩
      exact h2 ⟨hgt, (pyMod_eq_zero_iff h100).mpr ⟨k, hk⟩, hlt⟩

/-- C7: the calculation-mismatch detector fires exactly when the invoice
has line items and the declared total differs from the line-item sum plus
VAT by strictly more than 1.0, and the finding carries severity high and
the signed discrepancy `total − expected`; empty or missing line items
yield no finding. -/
theorem C7_calculation (invoice : Rec) :
    detect_calculation_anomalies invoice =
      if invoice.line_items ≠ [] ∧
          1 < |safe_float invoice.total_amount -
            ((invoice.line_items.map (fun item => safe_float item.total)).sum +
              safe_float invoice.vat_amount)| then
        some ("high",
          safe_float invoice.total_amount -
            ((invoice.line_items.map (fun item => safe_float item.total)).sum +
              safe_float invoice.vat_amount))
      else none := by
  unfold detect_calculation_anomalies
  rcases hl : invoice.line_items with _ | ⟨it, rest⟩ <;> simp [hl, ratAbs_eq_abs]

/-- C4: the duplicate detector's exact-duplicate findings are exactly one
critical finding per store record whose invoice number equals the
candidate's (with an absent candidate number read as the empty string),
independent of every amount field. -/
theorem C4_exact_duplicate (invoice : Rec) (db : List Rec) (now : ℚ) :
    (detect_duplicate_invoices invoice db now).filter
        (fun f => decide (f.dtype = "exact_duplicate")) =
      (db.filter (fun existing =>
          decide (existing.invoice_number =
            some (invoice.invoice_number.getD "")))).map
        (fun existing => ⟨"exact_duplicate", "critical", existing⟩) := by
  unfold detect_duplicate_invoices
  induction db with
  | nil => rfl
  | cons r rest ih =>
    rw [List.flatMap_cons, List.filter_append, ih]
    unfold dupFindingsFor
    rw [List.filter_append]
    have hs : List.filter (fun f => decide (f.dtype = "exact_duplicate"))
        (if pyLower r.supplier_name = pyLower invoice.supplier_name ∧
            ratAbs (safe_float invoice.total_amount - safe_float r.total_amount) <
              1/100 ∧
            dupDateOk now r.timestamp = true then
          ([⟨"suspicious_duplicate", "high", r⟩] : List DupFinding)
        else []) = [] := by
      split_ifs <;> rfl
    rw [hs, List.append_nil, List.filter_cons]
    by_cases hA : r.invoice_number = some (invoice.invoice_number.getD "") <;>
      simp [hA]

/-- C2: the matcher returns, for each payment, the result determined by the
first pending invoice satisfying the exact rule or the partial rule (exact
checked first on that invoice), or the unmatched dict when none does; the
reconciliation pass produces one Match per payment, in payment order,
against the unchanged candidate pool at the default tolerance 0.01. -/
theorem C2_matcher (pending : List PendingInvoice) (payments : List Payment)
    (payment : Payment) (tolerance : ℚ) :
    match_payment_to_invoice pending payment tolerance =
        matchSpec pending payment tolerance ∧
      reconcile_matches pending payments =
        payments.map (fun p => match_payment_to_invoice pending p (1/100)) ∧
      (reconcile_matches pending payments).length = payments.length := by
  refine ⟨?_, rfl, by simp [reconcile_matches]⟩
  induction pending with
  | nil => rfl
  | cons inv rest ih =>
    by_cases h1 : exactRule tolerance payment.value (inv.total_amount.getD 0)
    · have hp : (decide (exactRule tolerance payment.value (inv.total_amount.getD 0)) ||
          decide (partRule payment.value (inv.total_amount.getD 0))) = true := by
        simp [h1]
      unfold match_payment_to_invoice matchSpec
      simp only [ratAbs_eq_abs, List.find?_cons, hp]
      rw [if_pos (show |payment.value - inv.total_amount.getD 0| ≤ tolerance from h1),
        if_pos h1]
    · by_cases h2 : partRule payment.value (inv.total_amount.getD 0)
      · have hp : (decide (exactRule tolerance payment.value (inv.total_amount.getD 0)) ||
            decide (partRule payment.value (inv.total_amount.getD 0))) = true := by
          simp [h2]
        unfold match_payment_to_invoice matchSpec
        simp only [ratAbs_eq_abs, List.find?_cons, hp]
        rw [if_neg (show ¬|payment.value - inv.total_amount.getD 0| ≤ tolerance from h1),
          if_pos (show payment.value < inv.total_amount.getD 0 ∧ 0 < payment.value from
            ⟨h2.2, h2.1⟩),
          if_neg h1]
      · have hp : (decide (exactRule tolerance payment.value (inv.total_amount.getD 0)) ||
            decide (partRule payment.value (inv.total_amount.getD 0))) = false := by
          simp [h1, h2]
        unfold match_payment_to_invoice matchSpec
        simp only [ratAbs_eq_abs, List.find?_cons, hp]
        rw [if_neg (show ¬|payment.value - inv.total_amount.getD 0| ≤ tolerance from h1),
          if_neg (show ¬(payment.value < inv.total_amount.getD 0 ∧ 0 < payment.value) from
            fun hc => h2 ⟨hc.2, hc.1⟩)]
        exact ih

/-- C8 (amended): the matcher performs no tolerance validation; with a
negative tolerance it still returns a Match for each payment — the exact
rule can never hold (an absolute value is never at most a negative bound),
so the result is first-fit matching by the partial rule alone. -/
theorem C8_negative_tolerance (pending : List PendingInvoice) (payment : Payment)
    (tolerance : ℚ) (h : tolerance < 0) :
    match_payment_to_invoice pending payment tolerance =
      matchSpecPartOnly pending payment := by
  induction pending with
  | nil => rfl
  | cons inv rest ih =>
    have hex : ¬|payment.value - inv.total_amount.getD 0| ≤ tolerance := by
      intro hc
      exact absurd (le_trans (abs_nonneg _) hc) (not_le.mpr h)
    by_cases h2 : partRule payment.value (inv.total_amount.getD 0)
    · have hp : decide (partRule payment.value (inv.total_amount.getD 0)) = true := by
        simp [h2]
      unfold match_payment_to_invoice matchSpecPartOnly
      simp only [ratAbs_eq_abs, List.find?_cons, hp]
      rw [if_neg hex,
        if_pos (show payment.value < inv.total_amount.getD 0 ∧ 0 < payment.value from
          ⟨h2.2, h2.1⟩)]
    · have hp : decide (partRule payment.value (inv.total_amount.getD 0)) = false := by
        simp [h2]
      unfold match_payment_to_invoice matchSpecPartOnly
      simp only [ratAbs_eq_abs, List.find?_cons, hp]
      rw [if_neg hex,
        if_neg (show ¬(payment.value < inv.total_amount.getD 0 ∧ 0 < payment.value) from
          fun hc => h2 ⟨hc.2, hc.1⟩)]
      exact ih

/-- Witness for C8's amended theorem at a concrete input. -/
theorem C8_negative_tolerance_witness :
    match_payment_to_invoice [pendingB] ⟨50⟩ (-1) =
      matchSpecPartOnly [pendingB] ⟨50⟩ :=
  C8_negative_tolerance [pendingB] ⟨50⟩ (-1) (by norm_num)

/-- C8 counterexample: called with the negative tolerance −1, the matcher
does not fail; it returns an ordinary partial Match. -/
theorem C8_counterexample :
    match_payment_to_invoice [pendingB] ⟨50⟩ (-1) =
      ⟨true, some pendingB, ⟨50⟩, some "partial", some 50, some 50, none⟩ := by
  have h1 : ¬ratAbs ((50 : ℚ) - 100) ≤ (-1 : ℚ) := by
    rw [ratAbs_eq_abs]
    intro hc
    exact absurd (le_trans (abs_nonneg _) hc) (by norm_num)
  show (if ratAbs ((50 : ℚ) - (100 : ℚ)) ≤ (-1 : ℚ) then _ else
    if (50 : ℚ) < (100 : ℚ) ∧ (0 : ℚ) < (50 : ℚ) then _ else _) = _
  rw [if_neg h1, if_pos (by norm_num : (50 : ℚ) < (100 : ℚ) ∧ (0 : ℚ) < (50 : ℚ))]
  have hd : (100 : ℚ) - 50 = 50 := by norm_num
  have hp : (50 : ℚ) / 100 * 100 = 50 := by norm_num
  simp [pendingB, hd, hp]

/-- C5 (amended): the velocity detector counts store records with
case-insensitive-equal supplier name whose timestamp is less than 8 whole
days before now — with no lower bound, so future-dated records count, a
missing timestamp counts as now, and an unparseable one is skipped — and
emits a high finding reporting that count iff the count is at least 5. -/
theorem C5_velocity_amended (invoice : Rec) (db : List Rec) (now : ℚ) :
    detect_velocity_attack invoice db now =
      (if 5 ≤ (db.filter (fun r =>
            decide (pyLower r.supplier_name = pyLower invoice.supplier_name) &&
              atMost7DaysOld now r.timestamp)).length then
        some ("high", (db.filter (fun r =>
            decide (pyLower r.supplier_name = pyLower invoice.supplier_name) &&
              atMost7DaysOld now r.timestamp)).length)
      else none) := by
  have hpred : ∀ ts, velWindowOk now ts = atMost7DaysOld now ts := by
    intro ts
    cases ts with
    | missing =>
      show decide (((now - now : ℚ)).floor ≤ 7) = true
      rw [sub_self, ratFloor_eq_floor, Int.floor_zero]
      rfl
    | bad => rfl
    | val t =>
      simp only [velWindowOk, atMost7DaysOld, tsOrNow]
      rw [decide_eq_decide, ratFloor_eq_floor, Int.floor_le_iff]
      norm_num
  have hfilter : db.filter (fun r =>
        decide (pyLower r.supplier_name = pyLower invoice.supplier_name) &&
          velWindowOk now r.timestamp) =
      db.filter (fun r =>
        decide (pyLower r.supplier_name = pyLower invoice.supplier_name) &&
          atMost7DaysOld now r.timestamp) := by
    refine List.filter_congr ?_
    intro r _
    rw [hpred]
  unfold detect_velocity_attack velocityCount
  rw [hfilter]

/-- C5 counterexample: five future-dated records of the same supplier make
the detector fire although not one of them lies within the last 7 days of
now, refuting the claim's "finding iff at least 5 records within the last
7 days (inclusive)". -/
theorem C5_counterexample :
    detect_velocity_attack recA (List.replicate 5 recFuture) 0 =
        some ("high", 5) ∧
      ((List.replicate 5 recFuture).filter (fun r =>
          decide (pyLower r.supplier_name = pyLower recA.supplier_name) &&
            inLast7Days 0 r.timestamp)).length = 0 := by
  have hw : velWindowOk 0 (TS.val 100) = true := by
    show decide (((0 : ℚ) - 100).floor ≤ 7) = true
    rw [show ((0 : ℚ) - 100) = ((-100 : ℤ) : ℚ) by norm_num, ratFloor_eq_floor,
      Int.floor_intCast]
    rfl
  have hin : inLast7Days 0 (TS.val 100) = false := by
    show decide ((0 : ℚ) - 7 ≤ 100 ∧ (100 : ℚ) ≤ 0) = false
    rw [decide_eq_false_iff_not]
    intro hc
    exact absurd hc.2 (by norm_num)
  constructor
  · show (if 5 ≤ velocityCount (pyLower recA.supplier_name)
        (List.replicate 5 recFuture) 0 then
      some ("high", velocityCount (pyLower recA.supplier_name)
        (List.replicate 5 recFuture) 0) else none) = some ("high", 5)
    have hc : velocityCount (pyLower recA.supplier_name)
        (List.replicate 5 recFuture) 0 = 5 := by
      unfold velocityCount
      simp [recA, recFuture, hw, List.replicate, pyLower]
    rw [hc]
    rfl
  · simp [recA, recFuture, hin, List.replicate, pyLower]

/-- The detectors read the candidate's `total_amount` only through
`_safe_float`, so two amount fields with the same normalized value yield
the same assembled findings. -/
theorem analyze_findings_amount_congr (invoice : Rec) (db : List Rec)
    (now : ℚ) {v w : Amt} (h : safe_float v = safe_float w) :
    analyze_findings { invoice with total_amount := v } db now =
      analyze_findings { invoice with total_amount := w } db now := by
  unfold analyze_findings detect_duplicate_invoices detect_round_number_fraud
    detect_velocity_attack detect_calculation_anomalies
  dsimp only
  rw [h]

/-- The calculation detector is the only reader of `vat_amount`, and it
reads it only through `_safe_float`, so two vat fields with the same
normalized value yield the same assembled findings. -/
theorem analyze_findings_vat_congr (invoice : Rec) (db : List Rec)
    (now : ℚ) {v w : Amt} (h : safe_float v = safe_float w) :
    analyze_findings { invoice with vat_amount := v } db now =
      analyze_findings { invoice with vat_amount := w } db now := by
  unfold analyze_findings detect_duplicate_invoices detect_round_number_fraud
    detect_velocity_attack detect_calculation_anomalies
  dsimp only
  rw [h]

/-- Degraded amount fields normalize to the default 0. -/
theorem safe_float_of_degraded {v : Amt} (hv : amtDegraded v) :
    safe_float v = 0 := by
  cases v with
  | null => rfl
  | num q => exact absurd hv (fun hx => hx)
  | str s =>
    have hv2 : searchNumber (cleanAmt s) = none := hv
    simp only [safe_float, hv2]

/-- C3 (amended): an unparseable or absent value in the `total_amount` or
the `vat_amount` field normalizes to 0.0 and the invoice is analysed
exactly as if that field were the number 0; no finding records the
degradation, which is silently accepted. -/
theorem C3_parse_degradation (invoice : Rec) (db : List Rec) (now : ℚ)
    (v : Amt) (hv : amtDegraded v) :
    safe_float v = 0 ∧
      analyze_findings { invoice with total_amount := v } db now =
        analyze_findings { invoice with total_amount := Amt.num 0 } db now ∧
      analyze_findings { invoice with vat_amount := v } db now =
        analyze_findings { invoice with vat_amount := Amt.num 0 } db now := by
  have h0 : safe_float v = 0 := safe_float_of_degraded hv
  exact ⟨h0, analyze_findings_amount_congr invoice db now (by rw [h0]; rfl),
    analyze_findings_vat_congr invoice db now (by rw [h0]; rfl)⟩

/-- Witness for C3's amended theorem at a concrete absent amount. -/
theorem C3_parse_degradation_witness :
    safe_float Amt.null = 0 ∧
      analyze_findings { recA with total_amount := Amt.null } [] 0 =
        analyze_findings { recA with total_amount := Amt.num 0 } [] 0 ∧
      analyze_findings { recA with vat_amount := Amt.null } [] 0 =
        analyze_findings { recA with vat_amount := Amt.num 0 } [] 0 :=
  C3_parse_degradation recA [] 0 Amt.null trivial

/-- C3 counterexample: for a candidate whose `total_amount` is the
unparseable string "abc", normalization yields 0 but the analysis records
no finding at all — the ambiguity is silently dropped, not recorded as a
low-severity finding. -/
theorem C3_counterexample :
    safe_float (Amt.str ['a', 'b', 'c']) = 0 ∧
      analyze_findings { recA with total_amount := Amt.str ['a', 'b', 'c'] } [] 0 =
        [] := by
  constructor
  · rfl
  · rfl

/-- A successful unsigned match is a sum of a digit value and a
non-negative fraction, hence non-negative. -/
theorem matchUnsigned_nonneg {cs : List Char} {q : ℚ}
    (h : matchUnsigned cs = some q) : 0 ≤ q := by
  unfold matchUnsigned at h
  by_cases he : (cs.takeWhile Char.isDigit).isEmpty
  · rw [if_pos he] at h
    exact absurd h (by simp)
  · rw [if_neg he] at h
    split at h
    · rw [Option.some.injEq] at h
      subst h
      positivity
    · rw [Option.some.injEq] at h
      subst h
      positivity

/-- On input without a minus sign the signed match is the unsigned match. -/
theorem matchSigned_of_no_minus {cs : List Char} (h : '-' ∉ cs) :
    matchSigned cs = matchUnsigned cs := by
  cases cs with
  | nil => rfl
  | cons c rest =>
    have hc : c ≠ '-' := fun hcc => h (hcc ▸ List.mem_cons_self c rest)
    simp only [matchSigned]
    rw [if_neg hc]

/-- The leftmost regex match in a minus-free string is non-negative. -/
theorem searchNumber_nonneg_of_no_minus {cs : List Char} {q : ℚ}
    (hm : '-' ∉ cs) (h : searchNumber cs = some q) : 0 ≤ q := by
  induction cs with
  | nil => simp [searchNumber] at h
  | cons c rest ih =>
    unfold searchNumber at h
    rcases hms : matchSigned (c :: rest) with _ | q2 <;> simp only [hms] at h
    · exact ih (fun hx => hm (List.mem_cons_of_mem _ hx)) h
    · rw [Option.some.injEq] at h
      subst h
      rw [matchSigned_of_no_minus hm] at hms
      exact matchUnsigned_nonneg hms

/-- Members of a dropWhile are members of the original list. -/
theorem mem_of_mem_dropWhile {α : Type} {p : α → Bool} {a : α} :
    ∀ {l : List α}, a ∈ l.dropWhile p → a ∈ l := by
  intro l
  induction l with
  | nil => intro hx; simp [List.dropWhile] at hx
  | cons b t ih =>
    intro hx
    rw [List.dropWhile_cons] at hx
    split_ifs at hx with hb
    · exact List.mem_cons_of_mem _ (ih hx)
    · exact hx

/-- Stripping whitespace keeps only characters of the original string. -/
theorem pyStrip_subset {c : Char} {s : List Char} (h : c ∈ pyStrip s) :
    c ∈ s := by
  unfold pyStrip at h
  rw [List.mem_reverse] at h
  have h2 := mem_of_mem_dropWhile h
  rw [List.mem_reverse] at h2
  exact mem_of_mem_dropWhile h2

/-- C9 (amended): amount normalization always yields a finite rational,
and the result is non-negative whenever the input is absent, a
non-negative number, or a string containing no minus sign; inputs carrying
a minus sign can normalize to negative values. -/
theorem C9_nonneg_amended (v : Amt) (h : amtNonneg v) : 0 ≤ safe_float v := by
  cases v with
  | null => exact le_refl 0
  | num q => exact h
  | str s =>
    have hm : '-' ∉ cleanAmt s := by
      intro hx
      exact h (pyStrip_subset (List.mem_of_mem_filter hx))
    unfold safe_float
    rcases hs : searchNumber (cleanAmt s) with _ | q <;> simp only [hs]
    · exact le_refl 0
    · exact searchNumber_nonneg_of_no_minus hm hs

/-- Witness for C9's amended theorem at a concrete non-negative input. -/
theorem C9_nonneg_amended_witness : 0 ≤ safe_float (Amt.num 5) :=
  C9_nonneg_amended (Amt.num 5) (show (0 : ℚ) ≤ 5 by norm_num)

/-- C9 counterexample: the string "-5" normalizes to the negative value
−5, refuting non-negativity of normalization. -/
theorem C9_counterexample :
    safe_float (Amt.str ['-', '5']) = -5 ∧
      safe_float (Amt.str ['-', '5']) < 0 := by
  have h : safe_float (Amt.str ['-', '5']) = -((5 : ℕ) : ℚ) := rfl
  rw [h]
  norm_num

/-- Value of Python `round` strictly below the midpoint. -/
theorem pyRound_eq (q : ℚ) (n : ℤ) (h1 : (n : ℚ) ≤ q) (h2 : q < (n : ℚ) + 1/2) :
    pyRound q = n := by
  have hf : q.floor = n := by
    rw [ratFloor_eq_floor, Int.floor_eq_iff]
    exact ⟨h1, by linarith⟩
  unfold pyRound
  rw [hf, if_pos (by linarith : q - (n : ℚ) < 1/2)]

/-- Value of Python `round` strictly above the midpoint. -/
theorem pyRound_eq_up (q : ℚ) (n : ℤ) (h1 : (n : ℚ) + 1/2 < q)
    (h2 : q < (n : ℚ) + 1) : pyRound q = n + 1 := by
  have hf : q.floor = n := by
    rw [ratFloor_eq_floor, Int.floor_eq_iff]
    exact ⟨by linarith, h2⟩
  unfold pyRound
  rw [hf, if_neg (by linarith : ¬(q - (n : ℚ) < 1/2)),
    if_pos (by linarith : 1/2 < q - (n : ℚ))]

/-- C1 (amended): for every supplier and store, provided the supplier does
not have both more than 10 records and exactly one parseable timestamp
(in which case the scorer raises `ZeroDivisionError` instead of
returning), the risk scorer returns score 50 and level medium for an
unknown supplier and otherwise exactly
`round((triggered / applicable) * 100)` with the level banded on the
score: factor 2 is applicable only with at least 2 records, factor 3's
mean gap is taken over the records with parseable timestamps with each
gap truncated to whole days. -/
theorem C1_risk_score_amended (supplier_name : String) (db : List Rec)
    (h : ¬(10 < (supplierRecords supplier_name db).length ∧
        (parsedDates (supplierRecords supplier_name db)).length = 1)) :
    calculate_risk_score supplier_name db =
      some (riskScoreSpec supplier_name db) := by
  simp only [calculate_risk_score, riskScoreSpec]
  by_cases he : (supplierRecords supplier_name db).isEmpty
  · rw [if_pos he, if_pos he]
  · rw [if_neg he, if_neg he, if_neg h]
    have e0 : pyRound (0 : ℚ) = 0 := pyRound_eq 0 0 (by norm_num) (by norm_num)
    have e50 : pyRound (50 : ℚ) = 50 :=
      pyRound_eq 50 50 (by norm_num) (by norm_num)
    have e100 : pyRound (100 : ℚ) = 100 :=
      pyRound_eq 100 100 (by norm_num) (by norm_num)
    have e33 : pyRound (100 / 3 : ℚ) = 33 :=
      pyRound_eq (100 / 3) 33 (by norm_num) (by norm_num)
    have e67 : pyRound (200 / 3 : ℚ) = 67 := by
      have hu := pyRound_eq_up (200 / 3 : ℚ) 66 (by norm_num) (by norm_num)
      omega
    by_cases hf1 : ((supplierRecords supplier_name db).length : ℚ) * (3/10) <
        (((supplierRecords supplier_name db).filter
          (fun inv => !inv.flags.isEmpty)).length : ℚ) <;>
    by_cases hf2a : 1 < ((supplierRecords supplier_name db).map
        (fun inv => safe_float inv.total_amount)).length <;>
    by_cases hf2s : stdevGtHalfMean ((supplierRecords supplier_name db).map
        (fun inv => safe_float inv.total_amount)) <;>
    by_cases hf3 : 10 < (supplierRecords supplier_name db).length ∧
        ¬(parsedDates (supplierRecords supplier_name db)).isEmpty ∧
        (gapDaysSum ((parsedDates (supplierRecords supplier_name db)).insertionSort
          (· ≤ ·)) : ℚ) /
          (((parsedDates (supplierRecords supplier_name db)).length : ℚ) - 1) < 3 <;>
    simp only [riskF1, riskF2, riskF3, triggeredFactors, applicableFactors,
      hf1, hf2a, hf2s, hf3] <;>
    norm_num [e0, e50, e100, e33, e67]

/-- Witness for C1's amended theorem at a concrete supplier and store. -/
theorem C1_risk_score_amended_witness :
    calculate_risk_score "acme" [recWithTs] =
      some (riskScoreSpec "acme" [recWithTs]) :=
  C1_risk_score_amended "acme" [recWithTs] (by decide)

/-- C1 counterexample: with 11 records of the supplier of which exactly
one carries a parseable timestamp, the scorer divides by zero
(`sum([...]) / (len(dates) - 1)` with one date) and returns nothing. -/
theorem C1_counterexample :
    calculate_risk_score "acme" (recWithTs :: List.replicate 10 recNoTs) =
      none := by
  rfl
